import Mathlib

/-!
Shallow embedding of the avrocurio library (wire-format codec, schema-registry
clients, and the Avro serializer/deserializer orchestrator) together with
theorems checking the natural-language specification against the code.

External collaborators that the repository itself treats as out of scope
(`json`, `fastavro`, `httpx`, `dataclasses_avroschema`) are modelled as
parameters: abstract functions supplied to the embedded definitions.
-/

namespace Avrocurio

/-- The exception taxonomy of `exceptions.py`, plus `external` for arbitrary
exceptions raised by the third-party libraries (fastavro, json, httpx) that the
orchestrator catches with `except Exception`. Each carries its message. -/
inductive AErr where
  | avroCurio (msg : String)
  | schemaNotFound (msg : String)
  | invalidWireFormat (msg : String)
  | serialization (msg : String)
  | deserialization (msg : String)
  | schemaMismatch (msg : String)
  | schemaMatch (msg : String)
  | notImplemented (msg : String)
  | external (msg : String)
  deriving DecidableEq, Repr

/-- Python `str(e)`: the message an exception renders as inside an f-string. -/
def errMsg : AErr → String
  | .avroCurio m => m
  | .schemaNotFound m => m
  | .invalidWireFormat m => m
  | .serialization m => m
  | .deserialization m => m
  | .schemaMismatch m => m
  | .schemaMatch m => m
  | .notImplemented m => m
  | .external m => m

/-- `isinstance(e, (SerializationError, SchemaMismatchError, SchemaMatchError))`,
the pass-through test of `AvroSerializer.serialize`'s generic handler
(serializer.py lines 88-92). -/
def isSerializePassthrough : AErr → Bool
  | .serialization _ => true
  | .schemaMismatch _ => true
  | .schemaMatch _ => true
  | _ => false

namespace ConfluentWireFormat

/-- Modelled from the spec: `wire_format.py` (class `ConfluentWireFormat`) is
imported by `serializer.py` and exercised by the tests, but the file itself is
absent from the source snapshot. Spec section 4.1: `encode(schemaId, payload)`
always succeeds for a valid uint32 schema id and produces
`[0x00][big-endian 4-byte schemaId][payload]`, with no validation of the
payload content. Bytes are modelled as natural numbers. -/
def encode (schemaId : Nat) (payload : List Nat) : List Nat :=
  0 :: schemaId / 16777216 % 256 :: schemaId / 65536 % 256 ::
    schemaId / 256 % 256 :: schemaId % 256 :: payload

/-- Modelled from the spec: `wire_format.py` is absent from the source
snapshot. Spec section 4.1: `decode(message)` fails with `InvalidWireFormat`
if `len(message) < 5` or `message[0] != 0x00`; otherwise it reads bytes 1-4 as
a big-endian uint32 schema id and returns the remainder (possibly empty) as
the payload. -/
def decode (message : List Nat) : Except AErr (Nat × List Nat) :=
  match message with
  | b0 :: b1 :: b2 :: b3 :: b4 :: rest =>
    if b0 = 0 then
      .ok (((b1 * 256 + b2) * 256 + b3) * 256 + b4, rest)
    else
      .error (.invalidWireFormat "Invalid magic byte: expected 0x00")
  | _ => .error (.invalidWireFormat "Message too short for Confluent wire format")

end ConfluentWireFormat

/-- A Python value that is either a string or a (parsed, dict-shaped) schema
document. `SchemaDoc` is the abstract type of parsed schema mappings; the
repository manipulates them only through the external json/fastavro libraries. -/
inductive PyVal (SchemaDoc : Type) where
  | str (s : String)
  | doc (d : SchemaDoc)
  deriving DecidableEq, Repr

/-- A raw schema value as returned by a registry client's
`get_schema_by_global_id` / `get_latest_schema`: either a dict that contains a
`"schema"` key (whose value is `inner`), or any other value. This is the shape
`AvroSerializer._get_parsed_schema` (serializer.py lines 254-258) inspects. -/
inductive RegVal (SchemaDoc : Type) where
  | withSchemaKey (inner : PyVal SchemaDoc)
  | plain (v : PyVal SchemaDoc)
  deriving DecidableEq, Repr

/-- The schema-registry client interface consumed by `AvroSerializer`
(protocol.py / schema_client.py / inmemory_client.py). Each operation is a
possibly-failing call, modelled as a pure `Except`-valued function. -/
structure Client (SchemaDoc : Type) where
  getSchemaByGlobalId : Nat → Except AErr (RegVal SchemaDoc)
  getLatestSchema : String → String → Except AErr (Nat × RegVal SchemaDoc)
  findArtifactByContent : String → Except AErr (Option (String × String))
  findArtifactByFingerprint : String → Except AErr (Option (String × String))
  registerSchema : String → String → String → Except AErr Nat

/-- The external libraries the serializer calls: `json.loads` on schema text
(`none` = `json.JSONDecodeError`), `fastavro.schemaless_writer`
(`.error` = any exception raised by fastavro while encoding) and
`fastavro.schemaless_reader` (the `Option SchemaDoc` argument is the optional
`reader_schema`). Bytes are `List Nat`. -/
structure Ext (SchemaDoc ObjDict : Type) where
  jsonParse : String → Option SchemaDoc
  schemalessWriter : SchemaDoc → ObjDict → Except String (List Nat)
  schemalessReader : SchemaDoc → Option SchemaDoc → List Nat → Except String ObjDict

/-- An `AvroModel` instance as the serializer sees it: its own schema text
(`obj.avro_schema()`) and its dict representation (`obj.asdict()`). -/
structure Model (ObjDict : Type) where
  avroSchema : String
  asdict : ObjDict

/-- A target `AvroModel` class as `deserialize` sees it:
`target_class.avro_schema_to_python()` and `target_class.parse_obj`
(`.error` = any exception raised while building the instance). -/
structure TargetClass (SchemaDoc ObjDict Obj : Type) where
  avroSchemaToPython : SchemaDoc
  parseObj : ObjDict → Except String Obj

/-- `AvroSerializer.__init__` state: the client, the external libraries, and
the `cache_schemas` flag. The mutable `_parsed_schema_cache` dict is threaded
explicitly as an association list (newest binding first, like dict overwrite). -/
structure Serializer (SchemaDoc ObjDict : Type) where
  client : Client SchemaDoc
  ext : Ext SchemaDoc ObjDict
  cacheSchemas : Bool

/-- The `_parsed_schema_cache` mapping from schema id to parsed schema. -/
def Cache (SchemaDoc : Type) : Type := List (Nat × SchemaDoc)

/-- `AvroSerializer._get_parsed_schema` (serializer.py lines 239-273): return
the cached parsed schema when caching is on and the id is present; otherwise
unwrap a `"schema"` envelope, `json.loads` string content (failure raises
`DeserializationError`), and insert into the cache when caching is on.
Returns the result together with the updated cache. -/
def getParsedSchema {SchemaDoc : Type} (cacheSchemas : Bool)
    (jsonParse : String → Option SchemaDoc) (schemaId : Nat)
    (registrySchema : RegVal SchemaDoc) (cache : Cache SchemaDoc) :
    Except AErr SchemaDoc × Cache SchemaDoc :=
  match cacheSchemas, List.lookup schemaId cache with
  | true, some cached => (.ok cached, cache)
  | _, _ =>
    let schemaContent : PyVal SchemaDoc :=
      match registrySchema with
      | .withSchemaKey inner => inner
      | .plain v => v
    match schemaContent with
    | .str s =>
      match jsonParse s with
      | none =>
        (.error (.deserialization ("Invalid JSON schema for ID " ++ toString schemaId)),
         cache)
      | some parsed =>
        (.ok parsed, if cacheSchemas then (schemaId, parsed) :: cache else cache)
    | .doc d => (.ok d, if cacheSchemas then (schemaId, d) :: cache else cache)

/-- `AvroSerializer._validate_data_against_schema` (serializer.py lines
275-292): run `fastavro.schemaless_writer` on a scratch buffer and re-raise any
failure as `SchemaMismatchError`. -/
def validateDataAgainstSchema {SchemaDoc ObjDict : Type} (ext : Ext SchemaDoc ObjDict)
    (data : ObjDict) (schema : SchemaDoc) : Except AErr Unit :=
  match ext.schemalessWriter schema data with
  | .ok _ => .ok ()
  | .error e => .error (.schemaMismatch ("Data does not match schema: " ++ e))

/-- `AvroSerializer._serialize_with_schema_id` (serializer.py lines 104-134):
fetch the raw schema by global id, obtain the parsed schema (cache-aware),
validate the object's dict against it, encode with fastavro, and frame with
the Confluent wire format. -/
def serializeWithSchemaId {SchemaDoc ObjDict : Type}
    (S : Serializer SchemaDoc ObjDict) (obj : Model ObjDict) (schemaId : Nat)
    (cache : Cache SchemaDoc) : Except AErr (List Nat) × Cache SchemaDoc :=
  match S.client.getSchemaByGlobalId schemaId with
  | .error e => (.error e, cache)
  | .ok registrySchema =>
    match getParsedSchema S.cacheSchemas S.ext.jsonParse schemaId registrySchema cache with
    | (.error e, cache₁) => (.error e, cache₁)
    | (.ok parsedSchema, cache₁) =>
      let objDict := obj.asdict
      match validateDataAgainstSchema S.ext objDict parsedSchema with
      | .error e => (.error e, cache₁)
      | .ok _ =>
        match S.ext.schemalessWriter parsedSchema objDict with
        | .error e => (.error (.external e), cache₁)
        | .ok avroPayload =>
          (.ok (ConfluentWireFormat.encode schemaId avroPayload), cache₁)

/-- The message of the `SchemaMatchError` raised when automatic lookup finds
no match (serializer.py lines 76-79). -/
def noMatchMessage : String :=
  "No matching schema found in registry for automatic lookup. "
    ++ "Please register the schema manually or specify a schema_id."

/-- The body of `AvroSerializer.serialize`'s `try` block (serializer.py lines
58-86): explicit-id path, or automatic lookup (content search first, then
fingerprint search, then `SchemaMatchError`; a found coordinate is resolved
through `get_latest_schema`). -/
def serializeBody {SchemaDoc ObjDict : Type} (S : Serializer SchemaDoc ObjDict)
    (obj : Model ObjDict) (schemaId? : Option Nat) (cache : Cache SchemaDoc) :
    Except AErr (List Nat) × Cache SchemaDoc :=
  match schemaId? with
  | some sid => serializeWithSchemaId S obj sid cache
  | none =>
    let schemaContent := obj.avroSchema
    match S.client.findArtifactByContent schemaContent with
    | .error e => (.error e, cache)
    | .ok matchResult₀ =>
      let matchResult : Except AErr (Option (String × String)) :=
        match matchResult₀ with
        | none => S.client.findArtifactByFingerprint schemaContent
        | some r => .ok (some r)
      match matchResult with
      | .error e => (.error e, cache)
      | .ok none => (.error (.schemaMatch noMatchMessage), cache)
      | .ok (some (foundGroupId, foundArtifactId)) =>
        match S.client.getLatestSchema foundGroupId foundArtifactId with
        | .error e => (.error e, cache)
        | .ok (foundSchemaId, _) => serializeWithSchemaId S obj foundSchemaId cache

/-- `AvroSerializer.serialize` (serializer.py lines 40-102): run the body and
apply the generic handler, which re-raises `SerializationError`,
`SchemaMismatchError` and `SchemaMatchError` unchanged and wraps every other
exception into a `SerializationError` whose message names the schema id (or
"automatic schema lookup") and the underlying cause. -/
def serialize {SchemaDoc ObjDict : Type} (S : Serializer SchemaDoc ObjDict)
    (obj : Model ObjDict) (schemaId? : Option Nat) (cache : Cache SchemaDoc) :
    Except AErr (List Nat) × Cache SchemaDoc :=
  match serializeBody S obj schemaId? cache with
  | (.ok r, cache₁) => (.ok r, cache₁)
  | (.error e, cache₁) =>
    if isSerializePassthrough e then (.error e, cache₁)
    else
      let errorContext : String :=
        match schemaId? with
        | some sid => "schema ID " ++ toString sid
        | none => "automatic schema lookup"
      (.error (.serialization ("Failed to serialize object with " ++ errorContext
        ++ ": " ++ errMsg e)), cache₁)

/-- The body of `AvroSerializer.deserialize`'s `try` block (serializer.py
lines 149-169): decode the wire envelope, fetch and parse the writer schema by
the embedded id, decode the payload with `fastavro.schemaless_reader` passing
the target class's schema as `reader_schema`, and build the target object. -/
def deserializeBody {SchemaDoc ObjDict Obj : Type} (S : Serializer SchemaDoc ObjDict)
    (message : List Nat) (targetClass : TargetClass SchemaDoc ObjDict Obj)
    (cache : Cache SchemaDoc) : Except AErr Obj × Cache SchemaDoc :=
  match ConfluentWireFormat.decode message with
  | .error e => (.error e, cache)
  | .ok (schemaId, avroPayload) =>
    match S.client.getSchemaByGlobalId schemaId with
    | .error e => (.error e, cache)
    | .ok registrySchema =>
      match getParsedSchema S.cacheSchemas S.ext.jsonParse schemaId registrySchema cache with
      | (.error e, cache₁) => (.error e, cache₁)
      | (.ok parsedSchema, cache₁) =>
        match S.ext.schemalessReader parsedSchema
            (some targetClass.avroSchemaToPython) avroPayload with
        | .error e => (.error (.external e), cache₁)
        | .ok objDict =>
          match targetClass.parseObj objDict with
          | .error e => (.error (.external e), cache₁)
          | .ok obj => (.ok obj, cache₁)

/-- `AvroSerializer.deserialize` (serializer.py lines 136-174): run the body
and wrap any failure that is not already a `DeserializationError` into one. -/
def deserialize {SchemaDoc ObjDict Obj : Type} (S : Serializer SchemaDoc ObjDict)
    (message : List Nat) (targetClass : TargetClass SchemaDoc ObjDict Obj)
    (cache : Cache SchemaDoc) : Except AErr Obj × Cache SchemaDoc :=
  match deserializeBody S message targetClass cache with
  | (.ok r, cache₁) => (.ok r, cache₁)
  | (.error e, cache₁) =>
    match e with
    | .deserialization m => (.error (.deserialization m), cache₁)
    | _ => (.error (.deserialization ("Failed to deserialize message: " ++ errMsg e)),
            cache₁)

/-- The body of `AvroSerializer.deserialize_with_schema`'s `try` block
(serializer.py lines 191-206): like `deserialize` but the fastavro read is
`schemaless_reader(buffer, parsed_schema)` — no reader schema — and the raw
registry schema is returned alongside the decoded object. -/
def deserializeWithSchemaBody {SchemaDoc ObjDict Obj : Type}
    (S : Serializer SchemaDoc ObjDict) (message : List Nat)
    (targetClass : TargetClass SchemaDoc ObjDict Obj) (cache : Cache SchemaDoc) :
    Except AErr (Obj × RegVal SchemaDoc) × Cache SchemaDoc :=
  match ConfluentWireFormat.decode message with
  | .error e => (.error e, cache)
  | .ok (schemaId, avroPayload) =>
    match S.client.getSchemaByGlobalId schemaId with
    | .error e => (.error e, cache)
    | .ok registrySchema =>
      match getParsedSchema S.cacheSchemas S.ext.jsonParse schemaId registrySchema cache with
      | (.error e, cache₁) => (.error e, cache₁)
      | (.ok parsedSchema, cache₁) =>
        match S.ext.schemalessReader parsedSchema none avroPayload with
        | .error e => (.error (.external e), cache₁)
        | .ok objDict =>
          match targetClass.parseObj objDict with
          | .error e => (.error (.external e), cache₁)
          | .ok obj => (.ok (obj, registrySchema), cache₁)

/-- `AvroSerializer.deserialize_with_schema` (serializer.py lines 176-213):
run the body and wrap any failure that is not already a
`DeserializationError` into one. -/
def deserializeWithSchema {SchemaDoc ObjDict Obj : Type}
    (S : Serializer SchemaDoc ObjDict) (message : List Nat)
    (targetClass : TargetClass SchemaDoc ObjDict Obj) (cache : Cache SchemaDoc) :
    Except AErr (Obj × RegVal SchemaDoc) × Cache SchemaDoc :=
  match deserializeWithSchemaBody S message targetClass cache with
  | (.ok r, cache₁) => (.ok r, cache₁)
  | (.error e, cache₁) =>
    match e with
    | .deserialization m => (.error (.deserialization m), cache₁)
    | _ =>
      (.error (.deserialization ("Failed to deserialize message with schema: "
        ++ errMsg e)), cache₁)

/-- `SchemaVersion` (inmemory_client.py lines 12-18): one version of an
artifact coordinate. -/
structure SchemaVersion where
  version : Nat
  globalId : Nat
  schemaContent : String
  deriving DecidableEq, Repr

/-- The json library as `InMemoryClient` uses it: `json.loads` (abstract
parsed documents, `none` = parse failure) and
`json.dumps(d, sort_keys=True, separators=(",", ":"))`. -/
structure Js (SchemaDoc : Type) where
  parse : String → Option SchemaDoc
  dumpsSorted : SchemaDoc → String

/-- `InMemoryClient._normalize_schema` (inmemory_client.py lines 61-73):
`json.loads` then sorted-keys compact `json.dumps`; a parse failure
propagates as an exception (here `none`). -/
def normalizeSchema {SchemaDoc : Type} (js : Js SchemaDoc)
    (schemaContent : String) : Option String :=
  (js.parse schemaContent).map js.dumpsSorted

/-- `InMemoryClient` storage (inmemory_client.py lines 38-43): schemas by
global id, version lists by (group, artifact) coordinate, and the
normalized-content-to-global-id index. Dicts are association lists with
newest binding first (lookup takes the first hit, like dict overwrite). -/
structure InMemoryState (SchemaDoc : Type) where
  schemas : List (Nat × SchemaDoc)
  artifacts : List ((String × String) × List SchemaVersion)
  schemaToGlobalId : List (String × Nat)
  deriving DecidableEq, Repr

/-- `InMemoryClient._get_next_global_id` (inmemory_client.py lines 75-85):
1 when no schemas exist, otherwise max key + 1. -/
def getNextGlobalId {SchemaDoc : Type} (st : InMemoryState SchemaDoc) : Nat :=
  match st.schemas with
  | [] => 1
  | _ => (st.schemas.map Prod.fst).foldl max 0 + 1

/-- `InMemoryClient.register_schema` (inmemory_client.py lines 135-206):
normalize the content; if the normalized form is already indexed, return the
existing global id — unchanged state when the coordinate already holds a
version with that id, otherwise append a new version pointing at it; if the
content is new, allocate the next global id, store the parsed schema, index
the normalized form, and append a version under the coordinate. -/
def inMemoryRegisterSchema {SchemaDoc : Type} (js : Js SchemaDoc)
    (st : InMemoryState SchemaDoc) (group artifactName schemaContent : String) :
    Except AErr Nat × InMemoryState SchemaDoc :=
  match normalizeSchema js schemaContent with
  | none => (.error (.external "invalid JSON schema content"), st)
  | some normalized =>
    match List.lookup normalized st.schemaToGlobalId with
    | some existingId =>
      let key := (group, artifactName)
      let versions := (List.lookup key st.artifacts).getD []
      if versions.any (fun v => v.globalId == existingId) then
        (.ok existingId, st)
      else
        let schemaVersion : SchemaVersion :=
          ⟨versions.length + 1, existingId, schemaContent⟩
        (.ok existingId,
         { st with artifacts := (key, versions ++ [schemaVersion]) :: st.artifacts })
    | none =>
      match js.parse schemaContent with
      | none => (.error (.external "invalid JSON schema content"), st)
      | some schemaDict =>
        let globalId := getNextGlobalId st
        let key := (group, artifactName)
        let versions := (List.lookup key st.artifacts).getD []
        let schemaVersion : SchemaVersion :=
          ⟨versions.length + 1, globalId, schemaContent⟩
        (.ok globalId,
         { schemas := (globalId, schemaDict) :: st.schemas,
           artifacts := (key, versions ++ [schemaVersion]) :: st.artifacts,
           schemaToGlobalId := (normalized, globalId) :: st.schemaToGlobalId })

/-- `InMemoryClient.register_schema_version` (inmemory_client.py lines
208-267): like `register_schema` but fails with `AvroCurioError` when the
coordinate does not already exist. -/
def inMemoryRegisterSchemaVersion {SchemaDoc : Type} (js : Js SchemaDoc)
    (st : InMemoryState SchemaDoc) (groupId artifactId schemaContent : String) :
    Except AErr Nat × InMemoryState SchemaDoc :=
  match normalizeSchema js schemaContent with
  | none => (.error (.external "invalid JSON schema content"), st)
  | some normalized =>
    let key := (groupId, artifactId)
    match List.lookup key st.artifacts with
    | none =>
      (.error (.avroCurio ("Artifact " ++ groupId ++ "/" ++ artifactId
        ++ " does not exist")), st)
    | some versions =>
      match List.lookup normalized st.schemaToGlobalId with
      | some existingId =>
        if versions.any (fun v => v.globalId == existingId) then
          (.ok existingId, st)
        else
          let schemaVersion : SchemaVersion :=
            ⟨versions.length + 1, existingId, schemaContent⟩
          (.ok existingId,
           { st with artifacts := (key, versions ++ [schemaVersion]) :: st.artifacts })
      | none =>
        match js.parse schemaContent with
        | none => (.error (.external "invalid JSON schema content"), st)
        | some schemaDict =>
          let globalId := getNextGlobalId st
          let schemaVersion : SchemaVersion :=
            ⟨versions.length + 1, globalId, schemaContent⟩
          (.ok globalId,
           { schemas := (globalId, schemaDict) :: st.schemas,
             artifacts := (key, versions ++ [schemaVersion]) :: st.artifacts,
             schemaToGlobalId := (normalized, globalId) :: st.schemaToGlobalId })

/-- `InMemoryClient.check_artifact_exists` (inmemory_client.py lines 306-320):
the coordinate is present and its version list is non-empty. Total — it can
never raise. -/
def inMemoryCheckArtifactExists {SchemaDoc : Type} (st : InMemoryState SchemaDoc)
    (groupId artifactId : String) : Bool :=
  match List.lookup (groupId, artifactId) st.artifacts with
  | some versions => versions.length > 0
  | none => false

/-- An HTTP response as `httpx` returns it: status code and body text. -/
structure HttpResponse where
  status : Nat
  body : String
  deriving DecidableEq, Repr

/-- `ApicurioClient.check_artifact_exists` (schema_client.py lines 307-326):
issue a GET for the artifact URL and report whether the status is 200; any
`httpx.HTTPStatusError` or `httpx.RequestError` (modelled as `.error`) yields
`False`. Total — it can never raise. -/
def apicurioCheckArtifactExists (httpGet : String → Except String HttpResponse)
    (groupId artifactId : String) : Bool :=
  match httpGet ("/apis/registry/v3/groups/" ++ groupId ++ "/artifacts/" ++ artifactId) with
  | .ok response => response.status == 200
  | .error _ => false

/-- The per-candidate loop of `ApicurioClient.find_artifact_by_fingerprint`
(schema_client.py lines 433-459): for each candidate artifact, fetch its
latest schema and compute the fingerprint of its content (`schemaFp` bundles
envelope extraction, `json.loads`, `to_parsing_canonical_form` and
`fingerprint`; `none` = any exception in those steps); any per-candidate
failure is skipped via `except Exception: continue`; the first candidate whose
fingerprint equals the target wins; `none` after the whole scan. -/
def fingerprintScan {SchemaDoc FP : Type} [DecidableEq FP]
    (getLatest : String → String → Except AErr (Nat × RegVal SchemaDoc))
    (schemaFp : RegVal SchemaDoc → Option FP) (targetFp : FP) :
    List (String × String) → Option (String × String)
  | [] => none
  | (groupId, artifactId) :: rest =>
    match getLatest groupId artifactId with
    | .error _ => fingerprintScan getLatest schemaFp targetFp rest
    | .ok (_, schema) =>
      match schemaFp schema with
      | none => fingerprintScan getLatest schemaFp targetFp rest
      | some fp =>
        if fp = targetFp then some (groupId, artifactId)
        else fingerprintScan getLatest schemaFp targetFp rest

/-- `ApicurioClient.find_artifact_by_fingerprint` (schema_client.py lines
393-466): compute the target fingerprint from the given schema content
(failure raises `AvroCurioError`), fetch the candidate artifact list (a
failing search raises), then run the skip-on-error scan. -/
def findArtifactByFingerprintModel {SchemaDoc FP : Type} [DecidableEq FP]
    (computeFp : String → Option FP)
    (searchArtifacts : Except AErr (List (String × String)))
    (getLatest : String → String → Except AErr (Nat × RegVal SchemaDoc))
    (schemaFp : RegVal SchemaDoc → Option FP) (schemaContent : String) :
    Except AErr (Option (String × String)) :=
  match computeFp schemaContent with
  | none => .error (.avroCurio "Invalid JSON schema content")
  | some targetFp =>
    match searchArtifacts with
    | .error e => .error e
    | .ok artifacts => .ok (fingerprintScan getLatest schemaFp targetFp artifacts)

/-- The per-candidate fingerprint computation of the scan, as one function:
fetch the candidate's latest schema and fingerprint it; `none` on any failure. -/
def candidateFp {SchemaDoc FP : Type}
    (getLatest : String → String → Except AErr (Nat × RegVal SchemaDoc))
    (schemaFp : RegVal SchemaDoc → Option FP) (p : String × String) : Option FP :=
  match getLatest p.1 p.2 with
  | .error _ => none
  | .ok (_, schema) => schemaFp schema

/-! ## Helper lemmas -/

/-- Decoding an encoded frame recovers the schema id and payload, for any
schema id below 2^32. -/
theorem decode_encode_aux (schemaId : Nat) (payload : List Nat)
    (h : schemaId < 4294967296) :
    ConfluentWireFormat.decode (ConfluentWireFormat.encode schemaId payload) =
      .ok (schemaId, payload) := by
  have harith :
      ((schemaId / 16777216 % 256 * 256 + schemaId / 65536 % 256) * 256
          + schemaId / 256 % 256) * 256 + schemaId % 256 = schemaId := by
    omega
  simp [ConfluentWireFormat.encode, ConfluentWireFormat.decode, harith]

/-- `_get_parsed_schema` is idempotent on its own output cache: re-running it
with the cache it produced returns the same parsed schema and the same cache. -/
theorem getParsedSchema_idem {SchemaDoc : Type} (cs : Bool)
    (jp : String → Option SchemaDoc) (schemaId : Nat) (reg : RegVal SchemaDoc)
    (c c₁ : Cache SchemaDoc) (p : SchemaDoc)
    (h : getParsedSchema cs jp schemaId reg c = (.ok p, c₁)) :
    getParsedSchema cs jp schemaId reg c₁ = (.ok p, c₁) := by
  cases cs with
  | false =>
    have hc : c₁ = c := by
      unfold getParsedSchema at h
      rcases reg with ⟨s | d⟩ | ⟨s | d⟩ <;>
        simp at h <;> first
        | (rcases hjp : jp s with _ | parsed <;> simp [hjp] at h <;> exact h.2.symm)
        | exact h.2.symm
    subst hc
    exact h
  | true =>
    unfold getParsedSchema at h ⊢
    rcases hl : List.lookup schemaId c with _ | q
    · simp only [hl] at h
      rcases reg with ⟨s | d⟩ | ⟨s | d⟩ <;> simp at h
      · rcases hjp : jp s with _ | parsed <;> simp [hjp] at h
        obtain ⟨hp, hc⟩ := h
        subst hp; subst hc
        simp [List.lookup]
      · obtain ⟨hp, hc⟩ := h
        subst hp; subst hc
        simp [List.lookup]
      · rcases hjp : jp s with _ | parsed <;> simp [hjp] at h
        obtain ⟨hp, hc⟩ := h
        subst hp; subst hc
        simp [List.lookup]
      · obtain ⟨hp, hc⟩ := h
        subst hp; subst hc
        simp [List.lookup]
    · simp only [hl] at h
      obtain ⟨hp, hc⟩ : q = p ∧ c = c₁ := by
        simpa using h
      subst hp; subst hc
      simp [hl]

/-- With caching disabled, `_get_parsed_schema` never touches the cache. -/
theorem getParsedSchema_snd_false {SchemaDoc : Type}
    (jp : String → Option SchemaDoc) (schemaId : Nat) (reg : RegVal SchemaDoc)
    (c : Cache SchemaDoc) : (getParsedSchema false jp schemaId reg c).2 = c := by
  unfold getParsedSchema
  rcases reg with ⟨s | d⟩ | ⟨s | d⟩
  · rcases hjp : jp s with _ | parsed <;> simp [hjp]
  · simp
  · rcases hjp : jp s with _ | parsed <;> simp [hjp]
  · simp

/-- `_get_parsed_schema` only ever inserts: every binding visible in the input
cache is still visible, unchanged, in the output cache. -/
theorem getParsedSchema_preserves {SchemaDoc : Type} (cs : Bool)
    (jp : String → Option SchemaDoc) (schemaId : Nat) (reg : RegVal SchemaDoc)
    (c : Cache SchemaDoc) (k : Nat) (v : SchemaDoc)
    (hk : List.lookup k c = some v) :
    List.lookup k (getParsedSchema cs jp schemaId reg c).2 = some v := by
  cases cs with
  | false => rw [getParsedSchema_snd_false]; exact hk
  | true =>
    unfold getParsedSchema
    rcases hl : List.lookup schemaId c with _ | q
    · have hkne : (k == schemaId) = false := by
        refine beq_eq_false_iff_ne.mpr ?_
        intro hEq
        rw [hEq, hl] at hk
        cases hk
      simp only [hl]
      rcases reg with ⟨s | d⟩ | ⟨s | d⟩
      · rcases hjp : jp s with _ | parsed <;> simp [hjp, List.lookup, hkne, hk]
      · simp [List.lookup, hkne, hk]
      · rcases hjp : jp s with _ | parsed <;> simp [hjp, List.lookup, hkne, hk]
      · simp [List.lookup, hkne, hk]
    · simp [hl, hk]

/-! ## Concrete instances used by the witnesses -/

/-- A concrete external-library bundle over `SchemaDoc = ObjDict = Nat`:
every schema text parses to `7`, the codec writes a dict `d` as the single
byte `[d]` and reads it back. -/
def demoExt : Ext Nat Nat where
  jsonParse := fun _ => some 7
  schemalessWriter := fun _ d => .ok [d]
  schemalessReader := fun _ _ bs =>
    match bs with
    | [d] => .ok d
    | _ => .error "unexpected end of data"

/-- A concrete registry client: global id lookups always return the bare
document `7`, latest-version resolution returns id 1, searches find nothing. -/
def demoClient : Client Nat where
  getSchemaByGlobalId := fun _ => .ok (.plain (.doc 7))
  getLatestSchema := fun _ _ => .ok (1, .plain (.doc 7))
  findArtifactByContent := fun _ => .ok none
  findArtifactByFingerprint := fun _ => .ok none
  registerSchema := fun _ _ _ => .ok 1

/-- A concrete serializer with caching enabled. -/
def demoSerializer : Serializer Nat Nat := ⟨demoClient, demoExt, true⟩

/-- A concrete value whose dict representation is `5`. -/
def demoObj : Model Nat := ⟨"schema", 5⟩

/-- A concrete target class whose `parse_obj` is the identity. -/
def demoTarget : TargetClass Nat Nat Nat := ⟨7, fun d => .ok d⟩

/-- A client identical to `demoClient` except that global-id lookups fail with
`SchemaNotFoundError`, modelling a registry that no longer serves the id. -/
def demoNotFoundClient : Client Nat :=
  { demoClient with
    getSchemaByGlobalId := fun i =>
      .error (.schemaNotFound ("Schema with global ID " ++ toString i ++ " not found")) }

/-- An external-library bundle identical to `demoExt` except that the fastavro
writer always fails, modelling a value whose shape does not satisfy the
schema (for example a missing required field). -/
def demoMismatchExt : Ext Nat Nat :=
  { demoExt with schemalessWriter := fun _ _ => .error "no value and no default for name" }

/-- A concrete json bundle over `SchemaDoc = Nat`: the texts `"A"` and `"A2"`
both parse to the document `7`, whose sorted dump is `"7"` — two textually
different contents with the same canonical form. -/
def demoJs : Js Nat where
  parse := fun s => if s = "A" ∨ s = "A2" then some 7 else none
  dumpsSorted := fun d => toString d

/-! ## Claims -/

/-- C1: wire-format decode fails with the `InvalidWireFormat` kind whenever
the message is shorter than 5 bytes or its first byte is not 0x00; otherwise
it returns the big-endian uint32 in bytes 1-4 as the schema id and the
remaining bytes (possibly empty) as the payload; in particular decoding
exactly `[0x00,0,0,0,1]` yields schema id 1 and an empty payload. -/
theorem c1_wire_format_decode :
    (∀ message : List Nat, message.length < 5 →
      ∃ s, ConfluentWireFormat.decode message = .error (.invalidWireFormat s)) ∧
    (∀ (b : Nat) (rest : List Nat), b ≠ 0 →
      ∃ s, ConfluentWireFormat.decode (b :: rest) = .error (.invalidWireFormat s)) ∧
    (∀ (b₁ b₂ b₃ b₄ : Nat) (rest : List Nat),
      ConfluentWireFormat.decode (0 :: b₁ :: b₂ :: b₃ :: b₄ :: rest) =
        .ok (((b₁ * 256 + b₂) * 256 + b₃) * 256 + b₄, rest)) ∧
    ConfluentWireFormat.decode [0, 0, 0, 0, 1] = .ok (1, []) := by
  refine ⟨?_, ?_, ?_, rfl⟩
  · intro message h
    match message with
    | [] => exact ⟨_, rfl⟩
    | [_] => exact ⟨_, rfl⟩
    | [_, _] => exact ⟨_, rfl⟩
    | [_, _, _] => exact ⟨_, rfl⟩
    | [_, _, _, _] => exact ⟨_, rfl⟩
    | _ :: _ :: _ :: _ :: _ :: _ => simp at h; omega
  · intro b rest hb
    match rest with
    | [] => exact ⟨_, rfl⟩
    | [_] => exact ⟨_, rfl⟩
    | [_, _] => exact ⟨_, rfl⟩
    | [_, _, _] => exact ⟨_, rfl⟩
    | _ :: _ :: _ :: _ :: _ =>
      exact ⟨"Invalid magic byte: expected 0x00",
        by simp [ConfluentWireFormat.decode, hb]⟩
  · intro b₁ b₂ b₃ b₄ rest
    simp [ConfluentWireFormat.decode]

/-- Witness for C1 at concrete inputs: a 4-byte message and a 5-byte message
with leading byte 1 both fail with the wire-format kind; a well-formed frame
decodes to its id and payload. -/
theorem c1_wire_format_decode_witness :
    (([0, 0, 0, 1] : List Nat).length < 5 ∧
      ∃ s, ConfluentWireFormat.decode [0, 0, 0, 1] = .error (.invalidWireFormat s)) ∧
    ((1 : Nat) ≠ 0 ∧
      ∃ s, ConfluentWireFormat.decode [1, 0, 0, 0, 1] = .error (.invalidWireFormat s)) ∧
    ConfluentWireFormat.decode [0, 0, 0, 0, 2, 9] = .ok (2, [9]) :=
  ⟨⟨by decide, c1_wire_format_decode.1 [0, 0, 0, 1] (by decide)⟩,
   ⟨by decide, c1_wire_format_decode.2.1 1 [0, 0, 0, 1] (by decide)⟩,
   c1_wire_format_decode.2.2.1 0 0 0 2 [9]⟩

/-- C2: round-trip. For every valid 32-bit schema id and payload,
`decode (encode id payload) = (id, payload)`; and whenever the registry
resolves the id, the codec round-trips the value's dict and the target class
rebuilds the value from that dict, `deserialize (serialize v id) T`
reconstructs the value. -/
theorem c2_round_trip :
    (∀ (schemaId : Nat) (payload : List Nat), schemaId < 4294967296 →
      ConfluentWireFormat.decode (ConfluentWireFormat.encode schemaId payload) =
        .ok (schemaId, payload)) ∧
    (∀ (SchemaDoc ObjDict Obj : Type) (S : Serializer SchemaDoc ObjDict)
      (obj : Model ObjDict) (tc : TargetClass SchemaDoc ObjDict Obj)
      (schemaId : Nat) (cache c₁ : Cache SchemaDoc) (reg : RegVal SchemaDoc)
      (parsed : SchemaDoc) (payload : List Nat) (v : Obj),
      schemaId < 4294967296 →
      S.client.getSchemaByGlobalId schemaId = .ok reg →
      getParsedSchema S.cacheSchemas S.ext.jsonParse schemaId reg cache = (.ok parsed, c₁) →
      S.ext.schemalessWriter parsed obj.asdict = .ok payload →
      S.ext.schemalessReader parsed (some tc.avroSchemaToPython) payload = .ok obj.asdict →
      tc.parseObj obj.asdict = .ok v →
      serialize S obj (some schemaId) cache =
        (.ok (ConfluentWireFormat.encode schemaId payload), c₁) ∧
      deserialize S (ConfluentWireFormat.encode schemaId payload) tc c₁ = (.ok v, c₁)) := by
  refine ⟨decode_encode_aux, ?_⟩
  intro SchemaDoc ObjDict Obj S obj tc schemaId cache c₁ reg parsed payload v
    hid hfetch hparse hwrite hread hobj
  constructor
  · unfold serialize serializeBody serializeWithSchemaId
    simp [hfetch, hparse, validateDataAgainstSchema, hwrite]
  · unfold deserialize deserializeBody
    rw [decode_encode_aux schemaId payload hid]
    simp [hfetch, getParsedSchema_idem _ _ _ _ _ _ _ hparse, hread, hobj]

/-- Witness for C2 at a concrete serializer: serializing the value `5` with
schema id 1 frames the single byte payload `[5]`, and deserializing it back
recovers `5`. -/
theorem c2_round_trip_witness :
    ConfluentWireFormat.decode (ConfluentWireFormat.encode 1 [5]) = .ok (1, [5]) ∧
    serialize demoSerializer demoObj (some 1) [] =
      (.ok (ConfluentWireFormat.encode 1 [5]), [(1, 7)]) ∧
    deserialize demoSerializer (ConfluentWireFormat.encode 1 [5]) demoTarget [(1, 7)] =
      (.ok 5, [(1, 7)]) :=
  ⟨c2_round_trip.1 1 [5] (by decide),
   (c2_round_trip.2 Nat Nat Nat demoSerializer demoObj demoTarget 1 [] [(1, 7)]
      (.plain (.doc 7)) 7 [5] 5 (by decide) rfl rfl rfl rfl rfl).1,
   (c2_round_trip.2 Nat Nat Nat demoSerializer demoObj demoTarget 1 [] [(1, 7)]
      (.plain (.doc 7)) 7 [5] 5 (by decide) rfl rfl rfl rfl rfl).2⟩

/-- Helper: on a content-search hit, automatic lookup resolves the coordinate
through `get_latest_schema` and serializes with the found id. -/
theorem serializeBody_content_hit {SchemaDoc ObjDict : Type}
    (S : Serializer SchemaDoc ObjDict) (obj : Model ObjDict)
    (cache : Cache SchemaDoc) (g a : String)
    (h : S.client.findArtifactByContent obj.avroSchema = .ok (some (g, a))) :
    serializeBody S obj none cache =
      match S.client.getLatestSchema g a with
      | .error e => (.error e, cache)
      | .ok (foundId, _) => serializeWithSchemaId S obj foundId cache := by
  simp only [serializeBody, h]

/-- Helper: on a content-search miss, automatic lookup falls back to the
fingerprint search. -/
theorem serializeBody_content_miss {SchemaDoc ObjDict : Type}
    (S : Serializer SchemaDoc ObjDict) (obj : Model ObjDict)
    (cache : Cache SchemaDoc)
    (h : S.client.findArtifactByContent obj.avroSchema = .ok none) :
    serializeBody S obj none cache =
      match S.client.findArtifactByFingerprint obj.avroSchema with
      | .error e => (.error e, cache)
      | .ok none => (.error (.schemaMatch noMatchMessage), cache)
      | .ok (some (g, a)) =>
        match S.client.getLatestSchema g a with
        | .error e => (.error e, cache)
        | .ok (foundId, _) => serializeWithSchemaId S obj foundId cache := by
  simp only [serializeBody, h]

/-- C3: automatic lookup order and outcome. On a content-search hit the found
coordinate is resolved via `get_latest_schema` and serialization proceeds with
that id, and the fingerprint search is never consulted (the result is
invariant under replacing it); only on a content miss does the fingerprint
search run; when both searches find nothing, `serialize` returns exactly the
`SchemaMatchError` (not wrapped into `SerializationError`); and the result is
invariant under replacing the client's `register_schema` operation — no
registration is performed. -/
theorem c3_automatic_lookup :
    (∀ (SchemaDoc ObjDict : Type) (S : Serializer SchemaDoc ObjDict)
      (obj : Model ObjDict) (cache : Cache SchemaDoc) (g a : String),
      S.client.findArtifactByContent obj.avroSchema = .ok (some (g, a)) →
      serializeBody S obj none cache =
        (match S.client.getLatestSchema g a with
         | .error e => (.error e, cache)
         | .ok (foundId, _) => serializeWithSchemaId S obj foundId cache)) ∧
    (∀ (SchemaDoc ObjDict : Type)
      (f₁ : Nat → Except AErr (RegVal SchemaDoc))
      (f₂ : String → String → Except AErr (Nat × RegVal SchemaDoc))
      (f₃ : String → Except AErr (Option (String × String)))
      (f₄ f₄' : String → Except AErr (Option (String × String)))
      (f₅ : String → String → String → Except AErr Nat)
      (ext : Ext SchemaDoc ObjDict) (cs : Bool) (obj : Model ObjDict)
      (cache : Cache SchemaDoc) (r : String × String),
      f₃ obj.avroSchema = .ok (some r) →
      serialize ⟨⟨f₁, f₂, f₃, f₄, f₅⟩, ext, cs⟩ obj none cache =
        serialize ⟨⟨f₁, f₂, f₃, f₄', f₅⟩, ext, cs⟩ obj none cache) ∧
    (∀ (SchemaDoc ObjDict : Type) (S : Serializer SchemaDoc ObjDict)
      (obj : Model ObjDict) (cache : Cache SchemaDoc),
      S.client.findArtifactByContent obj.avroSchema = .ok none →
      serializeBody S obj none cache =
        (match S.client.findArtifactByFingerprint obj.avroSchema with
         | .error e => (.error e, cache)
         | .ok none => (.error (.schemaMatch noMatchMessage), cache)
         | .ok (some (g, a)) =>
           match S.client.getLatestSchema g a with
           | .error e => (.error e, cache)
           | .ok (foundId, _) => serializeWithSchemaId S obj foundId cache)) ∧
    (∀ (SchemaDoc ObjDict : Type) (S : Serializer SchemaDoc ObjDict)
      (obj : Model ObjDict) (cache : Cache SchemaDoc),
      S.client.findArtifactByContent obj.avroSchema = .ok none →
      S.client.findArtifactByFingerprint obj.avroSchema = .ok none →
      serialize S obj none cache = (.error (.schemaMatch noMatchMessage), cache)) ∧
    (∀ (SchemaDoc ObjDict : Type)
      (f₁ : Nat → Except AErr (RegVal SchemaDoc))
      (f₂ : String → String → Except AErr (Nat × RegVal SchemaDoc))
      (f₃ : String → Except AErr (Option (String × String)))
      (f₄ : String → Except AErr (Option (String × String)))
      (f₅ f₅' : String → String → String → Except AErr Nat)
      (ext : Ext SchemaDoc ObjDict) (cs : Bool) (obj : Model ObjDict)
      (schemaId? : Option Nat) (cache : Cache SchemaDoc),
      serialize ⟨⟨f₁, f₂, f₃, f₄, f₅⟩, ext, cs⟩ obj schemaId? cache =
        serialize ⟨⟨f₁, f₂, f₃, f₄, f₅'⟩, ext, cs⟩ obj schemaId? cache) := by
  refine ⟨fun _ _ => serializeBody_content_hit, ?_, fun _ _ => serializeBody_content_miss,
    ?_, ?_⟩
  · intro SchemaDoc ObjDict f₁ f₂ f₃ f₄ f₄' f₅ ext cs obj cache r h
    obtain ⟨g, a⟩ := r
    unfold serialize
    rw [serializeBody_content_hit _ _ _ g a h, serializeBody_content_hit _ _ _ g a h]
    rfl
  · intro SchemaDoc ObjDict S obj cache h₁ h₂
    unfold serialize
    rw [serializeBody_content_miss _ _ _ h₁]
    simp [h₂, isSerializePassthrough]
  · intro SchemaDoc ObjDict f₁ f₂ f₃ f₄ f₅ f₅' ext cs obj schemaId? cache
    rfl

/-- Witness for C3 at concrete clients over `SchemaDoc = ObjDict = Nat`. -/
theorem c3_automatic_lookup_witness :
    ((⟨demoClient, demoExt, true⟩ : Serializer Nat Nat).client.findArtifactByContent
        demoObj.avroSchema = .ok none ∧
      (⟨demoClient, demoExt, true⟩ : Serializer Nat Nat).client.findArtifactByFingerprint
        demoObj.avroSchema = .ok none ∧
      serialize (⟨demoClient, demoExt, true⟩ : Serializer Nat Nat) demoObj none [] =
        (.error (.schemaMatch noMatchMessage), [])) ∧
    ((fun _ => .ok (some ("g", "a")) :
        String → Except AErr (Option (String × String))) demoObj.avroSchema =
          .ok (some ("g", "a")) ∧
      serialize (⟨⟨demoClient.getSchemaByGlobalId, demoClient.getLatestSchema,
          fun _ => .ok (some ("g", "a")), fun _ => .ok none,
          demoClient.registerSchema⟩, demoExt, true⟩ : Serializer Nat Nat)
          demoObj none [] =
        serialize (⟨⟨demoClient.getSchemaByGlobalId, demoClient.getLatestSchema,
            fun _ => .ok (some ("g", "a")),
            fun _ => .error (.avroCurio "transport down"),
            demoClient.registerSchema⟩, demoExt, true⟩ : Serializer Nat Nat)
          demoObj none []) ∧
    serialize (⟨demoClient, demoExt, true⟩ : Serializer Nat Nat) demoObj (some 1) [] =
      serialize (⟨⟨demoClient.getSchemaByGlobalId, demoClient.getLatestSchema,
          demoClient.findArtifactByContent, demoClient.findArtifactByFingerprint,
          fun _ _ _ => .error (.avroCurio "register rejected")⟩, demoExt, true⟩ :
          Serializer Nat Nat) demoObj (some 1) [] :=
  ⟨⟨rfl, rfl,
    c3_automatic_lookup.2.2.2.1 Nat Nat ⟨demoClient, demoExt, true⟩ demoObj [] rfl rfl⟩,
   ⟨rfl,
    c3_automatic_lookup.2.1 Nat Nat demoClient.getSchemaByGlobalId
      demoClient.getLatestSchema (fun _ => .ok (some ("g", "a"))) (fun _ => .ok none)
      (fun _ => .error (.avroCurio "transport down")) demoClient.registerSchema
      demoExt true demoObj [] ("g", "a") rfl⟩,
   c3_automatic_lookup.2.2.2.2 Nat Nat demoClient.getSchemaByGlobalId
     demoClient.getLatestSchema demoClient.findArtifactByContent
     demoClient.findArtifactByFingerprint demoClient.registerSchema
     (fun _ _ _ => .error (.avroCurio "register rejected")) demoExt true demoObj
     (some 1) []⟩

/-- C4: when the value's shape does not satisfy the fetched schema, the codec
failure raised while validating is re-raised as `SchemaMismatchError` — not
`SerializationError` — and this `SchemaMismatchError` passes through
`serialize`'s generic handler unwrapped. -/
theorem c4_mismatch_unwrapped :
    ∀ (SchemaDoc ObjDict : Type) (S : Serializer SchemaDoc ObjDict)
      (obj : Model ObjDict) (schemaId : Nat) (cache c₁ : Cache SchemaDoc)
      (reg : RegVal SchemaDoc) (parsed : SchemaDoc) (msg : String),
      S.client.getSchemaByGlobalId schemaId = .ok reg →
      getParsedSchema S.cacheSchemas S.ext.jsonParse schemaId reg cache = (.ok parsed, c₁) →
      S.ext.schemalessWriter parsed obj.asdict = .error msg →
      serialize S obj (some schemaId) cache =
        (.error (.schemaMismatch ("Data does not match schema: " ++ msg)), c₁) := by
  intro SchemaDoc ObjDict S obj schemaId cache c₁ reg parsed msg hfetch hparse hwrite
  unfold serialize serializeBody serializeWithSchemaId
  simp [hfetch, hparse, validateDataAgainstSchema, hwrite, isSerializePassthrough]

/-- Witness for C4: a writer failure surfaces as `SchemaMismatchError` through
the full `serialize` call. -/
theorem c4_mismatch_unwrapped_witness :
    (⟨demoClient, demoMismatchExt, true⟩ : Serializer Nat Nat).client.getSchemaByGlobalId 1 =
      .ok (.plain (.doc 7)) ∧
    (⟨demoClient, demoMismatchExt, true⟩ : Serializer Nat Nat).ext.schemalessWriter 7 5 =
      .error "no value and no default for name" ∧
    serialize (⟨demoClient, demoMismatchExt, true⟩ : Serializer Nat Nat) demoObj (some 1) [] =
      (.error (.schemaMismatch
        "Data does not match schema: no value and no default for name"), [(1, 7)]) :=
  ⟨rfl, rfl,
   c4_mismatch_unwrapped Nat Nat ⟨demoClient, demoMismatchExt, true⟩ demoObj 1 []
     [(1, 7)] (.plain (.doc 7)) 7 "no value and no default for name" rfl rfl rfl⟩

/-- C5: on the explicit-schema-id path, a failing body whose error is not one
of `SerializationError` / `SchemaMismatchError` / `SchemaMatchError` is
wrapped exactly once into a `SerializationError` whose message names the
schema id and carries the underlying cause; a failure already of one of those
three kinds passes through unchanged, so nothing is ever double-wrapped; and
the pass-through test holds for exactly those three kinds. -/
theorem c5_wrap_exactly_once :
    (∀ (SchemaDoc ObjDict : Type) (S : Serializer SchemaDoc ObjDict)
      (obj : Model ObjDict) (schemaId : Nat) (cache c₁ : Cache SchemaDoc) (e : AErr),
      serializeBody S obj (some schemaId) cache = (.error e, c₁) →
      (isSerializePassthrough e = true →
        serialize S obj (some schemaId) cache = (.error e, c₁)) ∧
      (isSerializePassthrough e = false →
        serialize S obj (some schemaId) cache =
          (.error (.serialization ("Failed to serialize object with "
            ++ ("schema ID " ++ toString schemaId) ++ ": " ++ errMsg e)), c₁))) ∧
    (∀ e : AErr, isSerializePassthrough e = true ↔
      (∃ m, e = .serialization m) ∨ (∃ m, e = .schemaMismatch m) ∨
        (∃ m, e = .schemaMatch m)) := by
  constructor
  · intro SchemaDoc ObjDict S obj schemaId cache c₁ e h
    constructor <;> intro hp <;> unfold serialize <;> rw [h] <;> simp [hp]
  · intro e
    cases e <;> simp [isSerializePassthrough]

/-- Witness for C5: a schema-not-found failure from the registry is wrapped
once into a `SerializationError` naming schema id 1 and the cause, while a
schema-mismatch failure passes through unchanged. -/
theorem c5_wrap_exactly_once_witness :
    serializeBody (⟨demoNotFoundClient, demoExt, true⟩ : Serializer Nat Nat)
        demoObj (some 1) [] =
      (.error (.schemaNotFound "Schema with global ID 1 not found"), []) ∧
    isSerializePassthrough (.schemaNotFound "Schema with global ID 1 not found") = false ∧
    serialize (⟨demoNotFoundClient, demoExt, true⟩ : Serializer Nat Nat) demoObj (some 1) [] =
      (.error (.serialization
        "Failed to serialize object with schema ID 1: Schema with global ID 1 not found"),
       []) ∧
    serializeBody (⟨demoClient, demoMismatchExt, true⟩ : Serializer Nat Nat)
        demoObj (some 1) [] =
      (.error (.schemaMismatch
        "Data does not match schema: no value and no default for name"), [(1, 7)]) ∧
    serialize (⟨demoClient, demoMismatchExt, true⟩ : Serializer Nat Nat) demoObj (some 1) [] =
      (.error (.schemaMismatch
        "Data does not match schema: no value and no default for name"), [(1, 7)]) ∧
    (isSerializePassthrough (.serialization "w") = true ↔
      (∃ m, (AErr.serialization "w") = .serialization m) ∨
        (∃ m, (AErr.serialization "w") = .schemaMismatch m) ∨
          (∃ m, (AErr.serialization "w") = .schemaMatch m)) :=
  ⟨rfl, rfl,
   (c5_wrap_exactly_once.1 Nat Nat ⟨demoNotFoundClient, demoExt, true⟩ demoObj 1 [] []
      (.schemaNotFound "Schema with global ID 1 not found") rfl).2 rfl,
   rfl,
   (c5_wrap_exactly_once.1 Nat Nat ⟨demoClient, demoMismatchExt, true⟩ demoObj 1 []
      [(1, 7)] (.schemaMismatch
        "Data does not match schema: no value and no default for name") rfl).1 rfl,
   c5_wrap_exactly_once.2 (.serialization "w")⟩

/-- C6 counterexample: a successful serialize with schema id 1 populates the
parsed-schema cache, yet a subsequent call for the same id against a registry
that now fails the global-id lookup fails instead of being served from the
cache — `_serialize_with_schema_id` calls `get_schema_by_global_id` on every
call, so the registry fetch is not skipped when the cache is warm; only the
parse is. -/
theorem c6_cache_counterexample :
    serialize demoSerializer demoObj (some 1) [] =
      (.ok (ConfluentWireFormat.encode 1 [5]), [(1, 7)]) ∧
    List.lookup 1 ([(1, 7)] : Cache Nat) = some 7 ∧
    serialize (⟨demoNotFoundClient, demoExt, true⟩ : Serializer Nat Nat)
        demoObj (some 1) [(1, 7)] =
      (.error (.serialization
        "Failed to serialize object with schema ID 1: Schema with global ID 1 not found"),
       [(1, 7)]) :=
  ⟨rfl, rfl, rfl⟩

/-- C6 (amended): with caching enabled, once the cache holds an entry for an
id, `_get_parsed_schema` returns that same parsed Schema Document unchanged,
ignoring the freshly fetched raw schema and the JSON parser (the re-parse is
skipped) — but the client fetch itself still runs on every call, so a failing
fetch fails the call even with a warm cache; cache entries are only ever
inserted, never mutated or evicted; and with caching disabled the cache is
never populated. -/
theorem c6_cache_amended :
    (∀ (SchemaDoc : Type) (jp jp' : String → Option SchemaDoc) (schemaId : Nat)
      (reg reg' : RegVal SchemaDoc) (cache : Cache SchemaDoc) (p : SchemaDoc),
      List.lookup schemaId cache = some p →
      getParsedSchema true jp schemaId reg cache = (.ok p, cache) ∧
      getParsedSchema true jp schemaId reg cache =
        getParsedSchema true jp' schemaId reg' cache) ∧
    (∀ (SchemaDoc ObjDict : Type) (S : Serializer SchemaDoc ObjDict)
      (obj : Model ObjDict) (schemaId : Nat) (cache : Cache SchemaDoc) (e : AErr),
      S.client.getSchemaByGlobalId schemaId = .error e →
      serializeWithSchemaId S obj schemaId cache = (.error e, cache)) ∧
    (∀ (SchemaDoc : Type) (cs : Bool) (jp : String → Option SchemaDoc)
      (schemaId : Nat) (reg : RegVal SchemaDoc) (cache : Cache SchemaDoc)
      (k : Nat) (v : SchemaDoc),
      List.lookup k cache = some v →
      List.lookup k (getParsedSchema cs jp schemaId reg cache).2 = some v) ∧
    (∀ (SchemaDoc : Type) (jp : String → Option SchemaDoc) (schemaId : Nat)
      (reg : RegVal SchemaDoc) (cache : Cache SchemaDoc),
      (getParsedSchema false jp schemaId reg cache).2 = cache) := by
  refine ⟨?_, ?_, ?_, fun _ => getParsedSchema_snd_false⟩
  · intro SchemaDoc jp jp' schemaId reg reg' cache p hp
    constructor <;> unfold getParsedSchema <;> simp [hp]
  · intro SchemaDoc ObjDict S obj schemaId cache e h
    unfold serializeWithSchemaId
    rw [h]
  · intro SchemaDoc cs jp schemaId reg cache k v hk
    exact getParsedSchema_preserves cs jp schemaId reg cache k v hk

/-- Witness for C6 (amended) at concrete inputs. -/
theorem c6_cache_amended_witness :
    (List.lookup 1 ([(1, 7)] : Cache Nat) = some 7 ∧
      getParsedSchema true demoExt.jsonParse 1 (.plain (.doc 9)) [(1, 7)] =
        (.ok 7, [(1, 7)]) ∧
      getParsedSchema true demoExt.jsonParse 1 (.plain (.doc 9)) [(1, 7)] =
        getParsedSchema true (fun _ => none) 1 (.withSchemaKey (.str "junk")) [(1, 7)]) ∧
    ((⟨demoNotFoundClient, demoExt, true⟩ : Serializer Nat Nat).client.getSchemaByGlobalId 1 =
        .error (.schemaNotFound "Schema with global ID 1 not found") ∧
      serializeWithSchemaId (⟨demoNotFoundClient, demoExt, true⟩ : Serializer Nat Nat)
          demoObj 1 [(1, 7)] =
        (.error (.schemaNotFound "Schema with global ID 1 not found"), [(1, 7)])) ∧
    List.lookup 1 (getParsedSchema true demoExt.jsonParse 2 (.plain (.doc 9)) [(1, 7)]).2 =
      some 7 ∧
    (getParsedSchema false demoExt.jsonParse 2 (.plain (.doc 9)) [(1, 7)]).2 = [(1, 7)] :=
  ⟨⟨rfl,
    (c6_cache_amended.1 Nat demoExt.jsonParse (fun _ => none) 1 (.plain (.doc 9))
      (.withSchemaKey (.str "junk")) [(1, 7)] 7 rfl).1,
    (c6_cache_amended.1 Nat demoExt.jsonParse (fun _ => none) 1 (.plain (.doc 9))
      (.withSchemaKey (.str "junk")) [(1, 7)] 7 rfl).2⟩,
   ⟨rfl,
    c6_cache_amended.2.1 Nat Nat ⟨demoNotFoundClient, demoExt, true⟩ demoObj 1 [(1, 7)]
      (.schemaNotFound "Schema with global ID 1 not found") rfl⟩,
   c6_cache_amended.2.2.1 Nat true demoExt.jsonParse 2 (.plain (.doc 9)) [(1, 7)] 1 7 rfl,
   c6_cache_amended.2.2.2 Nat demoExt.jsonParse 2 (.plain (.doc 9)) [(1, 7)]⟩

/-- C7: `deserialize_with_schema` decodes the payload with only the writer
schema (the fastavro read takes no reader schema) and returns, alongside the
decoded object, the raw schema value exactly as fetched from the registry;
its result is invariant under changing the target class's own schema; whereas
`deserialize` passes the target class's schema as the reader schema. -/
theorem c7_deserialize_with_schema :
    (∀ (SchemaDoc ObjDict Obj : Type) (S : Serializer SchemaDoc ObjDict)
      (tc : TargetClass SchemaDoc ObjDict Obj) (message : List Nat)
      (schemaId : Nat) (payload : List Nat) (reg : RegVal SchemaDoc)
      (parsed : SchemaDoc) (cache c₁ : Cache SchemaDoc) (d : ObjDict) (v : Obj),
      ConfluentWireFormat.decode message = .ok (schemaId, payload) →
      S.client.getSchemaByGlobalId schemaId = .ok reg →
      getParsedSchema S.cacheSchemas S.ext.jsonParse schemaId reg cache = (.ok parsed, c₁) →
      S.ext.schemalessReader parsed none payload = .ok d →
      tc.parseObj d = .ok v →
      deserializeWithSchema S message tc cache = (.ok (v, reg), c₁)) ∧
    (∀ (SchemaDoc ObjDict Obj : Type) (S : Serializer SchemaDoc ObjDict)
      (rs rs' : SchemaDoc) (po : ObjDict → Except String Obj) (message : List Nat)
      (cache : Cache SchemaDoc),
      deserializeWithSchema S message ⟨rs, po⟩ cache =
        deserializeWithSchema S message ⟨rs', po⟩ cache) ∧
    (∀ (SchemaDoc ObjDict Obj : Type) (S : Serializer SchemaDoc ObjDict)
      (tc : TargetClass SchemaDoc ObjDict Obj) (message : List Nat)
      (schemaId : Nat) (payload : List Nat) (reg : RegVal SchemaDoc)
      (parsed : SchemaDoc) (cache c₁ : Cache SchemaDoc) (d : ObjDict) (v : Obj),
      ConfluentWireFormat.decode message = .ok (schemaId, payload) →
      S.client.getSchemaByGlobalId schemaId = .ok reg →
      getParsedSchema S.cacheSchemas S.ext.jsonParse schemaId reg cache = (.ok parsed, c₁) →
      S.ext.schemalessReader parsed (some tc.avroSchemaToPython) payload = .ok d →
      tc.parseObj d = .ok v →
      deserialize S message tc cache = (.ok v, c₁)) := by
  refine ⟨?_, ?_, ?_⟩
  · intro SchemaDoc ObjDict Obj S tc message schemaId payload reg parsed cache c₁ d v
      hdec hfetch hparse hread hobj
    unfold deserializeWithSchema deserializeWithSchemaBody
    rw [hdec]
    simp [hfetch, hparse, hread, hobj]
  · intro SchemaDoc ObjDict Obj S rs rs' po message cache
    rfl
  · intro SchemaDoc ObjDict Obj S tc message schemaId payload reg parsed cache c₁ d v
      hdec hfetch hparse hread hobj
    unfold deserialize deserializeBody
    rw [hdec]
    simp [hfetch, hparse, hread, hobj]

/-- Witness for C7: the concrete frame for schema id 1 and payload `[5]`
deserializes (writer-schema-only) to the value `5` together with the raw
registry schema, independently of the target class's own schema. -/
theorem c7_deserialize_with_schema_witness :
    ConfluentWireFormat.decode (ConfluentWireFormat.encode 1 [5]) = .ok (1, [5]) ∧
    demoExt.schemalessReader 7 none [5] = .ok 5 ∧
    deserializeWithSchema demoSerializer (ConfluentWireFormat.encode 1 [5]) demoTarget [] =
      (.ok (5, .plain (.doc 7)), [(1, 7)]) ∧
    deserializeWithSchema demoSerializer (ConfluentWireFormat.encode 1 [5])
        (⟨99, fun d => .ok d⟩ : TargetClass Nat Nat Nat) [] =
      deserializeWithSchema demoSerializer (ConfluentWireFormat.encode 1 [5])
        (⟨7, fun d => .ok d⟩ : TargetClass Nat Nat Nat) [] ∧
    deserialize demoSerializer (ConfluentWireFormat.encode 1 [5]) demoTarget [] =
      (.ok 5, [(1, 7)]) :=
  ⟨rfl, rfl,
   c7_deserialize_with_schema.1 Nat Nat Nat demoSerializer demoTarget
     (ConfluentWireFormat.encode 1 [5]) 1 [5] (.plain (.doc 7)) 7 [] [(1, 7)] 5 5
     rfl rfl rfl rfl rfl,
   c7_deserialize_with_schema.2.1 Nat Nat Nat demoSerializer 99 7 (fun d => .ok d)
     (ConfluentWireFormat.encode 1 [5]) [],
   c7_deserialize_with_schema.2.2 Nat Nat Nat demoSerializer demoTarget
     (ConfluentWireFormat.encode 1 [5]) 1 [5] (.plain (.doc 7)) 7 [] [(1, 7)] 5 5
     rfl rfl rfl rfl rfl⟩

/-- Helper: a successful `register_schema` leaves the state with the
normalized content indexed to the returned global id, and with the target
coordinate holding a version that points at that id. -/
theorem inMemoryRegisterSchema_ok_invariant {SchemaDoc : Type} (js : Js SchemaDoc)
    (st st₁ : InMemoryState SchemaDoc) (g a c n : String) (gid : Nat)
    (hn : normalizeSchema js c = some n)
    (h : inMemoryRegisterSchema js st g a c = (.ok gid, st₁)) :
    List.lookup n st₁.schemaToGlobalId = some gid ∧
    ((List.lookup (g, a) st₁.artifacts).getD []).any
      (fun v => v.globalId == gid) = true := by
  unfold inMemoryRegisterSchema at h
  rw [hn] at h
  rcases hl : List.lookup n st.schemaToGlobalId with _ | existingId
  · simp only [hl] at h
    rcases hjp : js.parse c with _ | schemaDict
    · rw [normalizeSchema, hjp] at hn
      cases hn
    · simp only [hjp] at h
      obtain ⟨hgid, hst⟩ : getNextGlobalId st = gid ∧ _ = st₁ := by
        simpa using h
      subst hgid
      subst hst
      constructor
      · simp [List.lookup]
      · simp [List.lookup]
  · simp only [hl] at h
    rcases hany : ((List.lookup (g, a) st.artifacts).getD []).any
        (fun v => v.globalId == existingId) with _ | _
    · simp only [hany] at h
      obtain ⟨hgid, hst⟩ : existingId = gid ∧ _ = st₁ := by
        simpa using h
      subst hgid
      subst hst
      refine ⟨hl, ?_⟩
      simp [List.lookup, hany]
    · simp only [hany] at h
      obtain ⟨hgid, hst⟩ : existingId = gid ∧ st = st₁ := by
        simpa using h
      subst hgid
      subst hst
      exact ⟨hl, hany⟩

/-- C8: in-memory schema registration is idempotent. Re-registering content
with the same canonical form against the same coordinate returns the same
global id and leaves the state untouched; registering it against a coordinate
that does not yet hold that id returns the same global id and only appends a
version pointing at it — the schema store and the content index are
unchanged, so no new id is allocated and no storage is duplicated. -/
theorem c8_idempotent_registration :
    ∀ (SchemaDoc : Type) (js : Js SchemaDoc) (st st₁ : InMemoryState SchemaDoc)
      (g a g' a' c c' n : String) (gid : Nat),
      normalizeSchema js c = some n →
      normalizeSchema js c' = some n →
      inMemoryRegisterSchema js st g a c = (.ok gid, st₁) →
      inMemoryRegisterSchema js st₁ g a c' = (.ok gid, st₁) ∧
      (((List.lookup (g', a') st₁.artifacts).getD []).any
          (fun v => v.globalId == gid) = false →
        inMemoryRegisterSchema js st₁ g' a' c' =
          (.ok gid, { st₁ with artifacts :=
            ((g', a'), (List.lookup (g', a') st₁.artifacts).getD []
              ++ [⟨((List.lookup (g', a') st₁.artifacts).getD []).length + 1, gid, c'⟩])
              :: st₁.artifacts })) := by
  intro SchemaDoc js st st₁ g a g' a' c c' n gid hn hn' h
  obtain ⟨hidx, hany⟩ := inMemoryRegisterSchema_ok_invariant js st st₁ g a c n gid hn h
  constructor
  · unfold inMemoryRegisterSchema
    rw [hn']
    simp [hidx, hany]
  · intro hany'
    unfold inMemoryRegisterSchema
    rw [hn']
    simp [hidx, hany']

/-- Witness for C8: registering `"A"` on an empty registry yields id 1;
re-registering the canonically identical `"A2"` on the same coordinate is a
no-op returning 1; registering it under a different coordinate appends one
version pointing at id 1 without touching the schema store or the index. -/
theorem c8_idempotent_registration_witness :
    normalizeSchema demoJs "A" = some "7" ∧
    normalizeSchema demoJs "A2" = some "7" ∧
    inMemoryRegisterSchema demoJs ⟨[], [], []⟩ "g" "art" "A" =
      (.ok 1, ⟨[(1, 7)], [(("g", "art"), [⟨1, 1, "A"⟩])], [("7", 1)]⟩) ∧
    inMemoryRegisterSchema demoJs
        ⟨[(1, 7)], [(("g", "art"), [⟨1, 1, "A"⟩])], [("7", 1)]⟩ "g" "art" "A2" =
      (.ok 1, ⟨[(1, 7)], [(("g", "art"), [⟨1, 1, "A"⟩])], [("7", 1)]⟩) ∧
    inMemoryRegisterSchema demoJs
        ⟨[(1, 7)], [(("g", "art"), [⟨1, 1, "A"⟩])], [("7", 1)]⟩ "g2" "art2" "A2" =
      (.ok 1, ⟨[(1, 7)],
        [(("g2", "art2"), [⟨1, 1, "A2"⟩]), (("g", "art"), [⟨1, 1, "A"⟩])],
        [("7", 1)]⟩) := by
  have h₁ : inMemoryRegisterSchema demoJs ⟨[], [], []⟩ "g" "art" "A" =
      (.ok 1, ⟨[(1, 7)], [(("g", "art"), [⟨1, 1, "A"⟩])], [("7", 1)]⟩) := by rfl
  have hmain := c8_idempotent_registration Nat demoJs ⟨[], [], []⟩
    ⟨[(1, 7)], [(("g", "art"), [⟨1, 1, "A"⟩])], [("7", 1)]⟩
    "g" "art" "g2" "art2" "A" "A2" "7" 1 (by decide) (by decide) h₁
  exact ⟨by decide, by decide, h₁, hmain.1, hmain.2 (by decide)⟩

/-- C9: in the fingerprint search, a candidate whose fetch or fingerprint
computation fails is skipped and the scan continues — one bad candidate never
aborts the search; the scan returns the first candidate whose latest-version
fingerprint equals the target, or `none` after scanning all candidates; and
the full search function returns exactly that scan result once the target
fingerprint and the candidate list are obtained. -/
theorem c9_fingerprint_scan :
    (∀ (SchemaDoc FP : Type) [DecidableEq FP]
      (getLatest : String → String → Except AErr (Nat × RegVal SchemaDoc))
      (schemaFp : RegVal SchemaDoc → Option FP) (targetFp : FP) (g a : String)
      (rest : List (String × String)),
      candidateFp getLatest schemaFp (g, a) = none →
      fingerprintScan getLatest schemaFp targetFp ((g, a) :: rest) =
        fingerprintScan getLatest schemaFp targetFp rest) ∧
    (∀ (SchemaDoc FP : Type) [DecidableEq FP]
      (getLatest : String → String → Except AErr (Nat × RegVal SchemaDoc))
      (schemaFp : RegVal SchemaDoc → Option FP) (targetFp : FP)
      (artifacts : List (String × String)),
      fingerprintScan getLatest schemaFp targetFp artifacts =
        artifacts.find?
          (fun p => decide (candidateFp getLatest schemaFp p = some targetFp))) ∧
    (∀ (SchemaDoc FP : Type) [DecidableEq FP]
      (computeFp : String → Option FP)
      (searchArtifacts : Except AErr (List (String × String)))
      (getLatest : String → String → Except AErr (Nat × RegVal SchemaDoc))
      (schemaFp : RegVal SchemaDoc → Option FP) (schemaContent : String)
      (targetFp : FP) (artifacts : List (String × String)),
      computeFp schemaContent = some targetFp →
      searchArtifacts = .ok artifacts →
      findArtifactByFingerprintModel computeFp searchArtifacts getLatest schemaFp
          schemaContent =
        .ok (artifacts.find?
          (fun p => decide (candidateFp getLatest schemaFp p = some targetFp)))) := by
  have hfind : ∀ (SchemaDoc FP : Type) [DecidableEq FP]
      (getLatest : String → String → Except AErr (Nat × RegVal SchemaDoc))
      (schemaFp : RegVal SchemaDoc → Option FP) (targetFp : FP)
      (artifacts : List (String × String)),
      fingerprintScan getLatest schemaFp targetFp artifacts =
        artifacts.find?
          (fun p => decide (candidateFp getLatest schemaFp p = some targetFp)) := by
    intro SchemaDoc FP _ getLatest schemaFp targetFp artifacts
    induction artifacts with
    | nil => rfl
    | cons head rest ih =>
      obtain ⟨g, a⟩ := head
      rcases hgl : getLatest g a with e | r
      · simp [fingerprintScan, hgl, ih, List.find?, candidateFp]
      · obtain ⟨gid, schema⟩ := r
        rcases hfp : schemaFp schema with _ | fp
        · simp [fingerprintScan, hgl, hfp, ih, List.find?, candidateFp]
        · by_cases he : fp = targetFp
          · simp [fingerprintScan, hgl, hfp, he, List.find?, candidateFp]
          · simp [fingerprintScan, hgl, hfp, he, ih, List.find?, candidateFp]
  refine ⟨?_, hfind, ?_⟩
  · intro SchemaDoc FP _ getLatest schemaFp targetFp g a rest hcand
    unfold candidateFp at hcand
    rcases hgl : getLatest g a with e | r
    · simp [fingerprintScan, hgl]
    · obtain ⟨gid, schema⟩ := r
      rw [hgl] at hcand
      simp only [] at hcand
      simp [fingerprintScan, hgl, hcand]
  · intro SchemaDoc FP _ computeFp searchArtifacts getLatest schemaFp schemaContent
      targetFp artifacts hc hs
    simp only [findArtifactByFingerprintModel, hc, hs]
    rw [hfind]

/-- Witness for C9 over `SchemaDoc = FP = Nat`: a first candidate whose fetch
fails is skipped and the second, matching candidate is returned, through the
full search function. -/
theorem c9_fingerprint_scan_witness :
    candidateFp (fun g _ => if g = "bad" then .error (.schemaNotFound "gone")
        else .ok (1, .plain (.doc 7)))
      (fun _ => some 42) (("bad", "x")) = none ∧
    fingerprintScan (fun g _ => if g = "bad" then .error (.schemaNotFound "gone")
        else .ok (1, .plain (.doc 7)))
      (fun _ => some 42) 42 [("bad", "x"), ("good", "y")] =
      fingerprintScan (fun g _ => if g = "bad" then .error (.schemaNotFound "gone")
        else .ok (1, .plain (.doc 7)))
        (fun _ => some 42) 42 [("good", "y")] ∧
    ((fun _ => some 42 : String → Option Nat) "{}" = some 42 ∧
      (.ok [("bad", "x"), ("good", "y")] :
          Except AErr (List (String × String))) = .ok [("bad", "x"), ("good", "y")] ∧
      findArtifactByFingerprintModel (fun _ => some 42)
          (.ok [("bad", "x"), ("good", "y")])
          (fun g _ => if g = "bad" then .error (.schemaNotFound "gone")
            else .ok (1, .plain (.doc 7)))
          (fun _ => some 42) "{}" =
        .ok (some ("good", "y"))) := by
  refine ⟨rfl, ?_, rfl, rfl, ?_⟩
  · exact c9_fingerprint_scan.1 Nat Nat
      (fun g _ => if g = "bad" then .error (.schemaNotFound "gone")
        else .ok (1, .plain (.doc 7)))
      (fun _ => some 42) 42 "bad" "x" [("good", "y")] rfl
  · have h := c9_fingerprint_scan.2.2 Nat Nat (fun _ => some 42)
      (.ok [("bad", "x"), ("good", "y")])
      (fun g _ => if g = "bad" then .error (.schemaNotFound "gone")
        else .ok (1, .plain (.doc 7)))
      (fun _ => some 42) "{}" 42 [("bad", "x"), ("good", "y")] rfl rfl
    rw [h]
    exact rfl

/-- C10: `check_artifact_exists` is total (it returns a `Bool`, never an
exception) and returns `true` exactly when the artifact lookup succeeds: for
the HTTP client, exactly when the GET on the artifact URL returns status 200
— any HTTP status error or transport failure yields `false`; for the
in-memory client, exactly when the coordinate holds a non-empty version list. -/
theorem c10_check_artifact_exists :
    (∀ (httpGet : String → Except String HttpResponse) (g a : String),
      apicurioCheckArtifactExists httpGet g a = true ↔
        ∃ resp, httpGet ("/apis/registry/v3/groups/" ++ g ++ "/artifacts/" ++ a) =
            .ok resp ∧ resp.status = 200) ∧
    (∀ (httpGet : String → Except String HttpResponse) (g a : String) (e : String),
      httpGet ("/apis/registry/v3/groups/" ++ g ++ "/artifacts/" ++ a) = .error e →
      apicurioCheckArtifactExists httpGet g a = false) ∧
    (∀ (SchemaDoc : Type) (st : InMemoryState SchemaDoc) (g a : String),
      inMemoryCheckArtifactExists st g a = true ↔
        ∃ versions, List.lookup (g, a) st.artifacts = some versions ∧
          versions ≠ []) := by
  refine ⟨?_, ?_, ?_⟩
  · intro httpGet g a
    unfold apicurioCheckArtifactExists
    rcases hresp : httpGet ("/apis/registry/v3/groups/" ++ g ++ "/artifacts/" ++ a)
        with e | resp
    · simp
    · simp only [beq_iff_eq]
      constructor
      · intro h
        exact ⟨resp, rfl, h⟩
      · rintro ⟨r, hr, hst⟩
        cases hr
        exact hst
  · intro httpGet g a e h
    unfold apicurioCheckArtifactExists
    rw [h]
  · intro SchemaDoc st g a
    unfold inMemoryCheckArtifactExists
    rcases hl : List.lookup (g, a) st.artifacts with _ | versions
    · simp
    · rcases versions with _ | ⟨v, vs⟩ <;> simp

/-- Witness for C10: a 200 response reports `true`, a transport failure
reports `false`, a 404 reports `false`, and the in-memory client reports a
populated coordinate. -/
theorem c10_check_artifact_exists_witness :
    apicurioCheckArtifactExists (fun _ => .ok ⟨200, "{}"⟩) "g" "a" = true ∧
    ((fun _ => .error "connection refused" :
        String → Except String HttpResponse)
        ("/apis/registry/v3/groups/" ++ "g" ++ "/artifacts/" ++ "a") =
      .error "connection refused" ∧
      apicurioCheckArtifactExists (fun _ => .error "connection refused") "g" "a" =
        false) ∧
    apicurioCheckArtifactExists (fun _ => .ok ⟨404, "not found"⟩) "g" "a" = false ∧
    inMemoryCheckArtifactExists
      (⟨[(1, 7)], [(("g", "art"), [⟨1, 1, "A"⟩])], [("7", 1)]⟩ : InMemoryState Nat)
      "g" "art" = true :=
  ⟨(c10_check_artifact_exists.1 (fun _ => .ok ⟨200, "{}"⟩) "g" "a").mpr
      ⟨⟨200, "{}"⟩, rfl, rfl⟩,
   ⟨rfl, c10_check_artifact_exists.2.1 (fun _ => .error "connection refused") "g" "a"
      "connection refused" rfl⟩,
   rfl,
   (c10_check_artifact_exists.2.2 Nat
      ⟨[(1, 7)], [(("g", "art"), [⟨1, 1, "A"⟩])], [("7", 1)]⟩ "g" "art").mpr
      ⟨[⟨1, 1, "A"⟩], rfl, by simp⟩⟩

end Avrocurio
